import Mathlib

/-!
Shallow embedding of the model-manager subsystem of the repository
(private_gpt/components/model_manager): the model registry
(model_registry.py), the download tracker and model loader
(model_loader.py) and the model manager (model_manager_component.py).

Modelling conventions:
- Python dicts become association lists `List (κ × α)`; `d[k] = v` is
  `dictSet`, `del d[k]` is `dictDel`, `d.get(k)` is `List.lookup`.
  Reachable Python states never hold a duplicate key; where a proof needs
  this representation invariant it appears as an explicit hypothesis.
- The state mutated by a method becomes an explicit argument and result.
- The external collaborators that are out of scope for the spec are
  oracles passed as arguments: the model instantiator (LlamaCPP /
  HuggingFaceEmbedding construction inside `_load_llm_model` /
  `_load_embedding_model`) is an `Instantiator H` producing an optional
  opaque handle of type `H`, and the artifact fetcher (`hf_hub_download` /
  `snapshot_download`) is a function `ModelConfig → Except String String`
  giving a local path or a stringified failure.
- A Python method that can raise returns `Except String …`; the state
  paired with an `.error` result is the state at the raise point.
- `uuid.uuid4()` task ids are modelled by a counter supplying fresh
  natural numbers (the code relies on uuid freshness).
- Python floats written and re-read through `json` round-trip exactly;
  progress values and `size_gb` are modelled as rationals.
-/

namespace PrivateGPT

/-- Python dict assignment `d[k] = v`: replace the entry if the key is
present, otherwise append it. -/
def dictSet {κ α : Type} [DecidableEq κ] : List (κ × α) → κ → α → List (κ × α)
  | [], k, v => [(k, v)]
  | p :: rest, k, v => if p.1 = k then (k, v) :: rest else p :: dictSet rest k v

/-- Python dict deletion `del d[k]`. -/
def dictDel {κ α : Type} [DecidableEq κ] (l : List (κ × α)) (k : κ) : List (κ × α) :=
  l.filter (fun p => !(p.1 == k))

/-- ModelInfo (models.py): one pydantic entry per known model. -/
structure ModelInfo where
  model_id : String
  model_type : String
  model_name : String
  model_path : Option String := none
  is_loaded : Bool := false
  is_downloading : Bool := false
  size_gb : Option ℚ := none
  capabilities : List String := []
deriving DecidableEq, Repr

/-- State of ModelRegistry (model_registry.py): the in-memory mapping
`self.models` and the persisted JSON document at `registry_path`
(`disk = none` models an absent file). -/
structure RegistryState where
  models : List (String × ModelInfo)
  disk : Option (List (String × ModelInfo))
deriving DecidableEq, Repr

namespace RegistryState

/-- Loop body of `_load_registry`: `for model_id, model_data in data.items():
self.models[model_id] = ModelInfo(**model_data)`, starting from an empty
dict (pydantic reconstruction from the JSON fields is the identity on the
modelled fields). -/
def loadFromDisk (data : List (String × ModelInfo)) : List (String × ModelInfo) :=
  data.foldl (fun m kv => dictSet m kv.1 kv.2) []

/-- ModelRegistry construction: `_load_registry` reads the persisted
document if it exists, otherwise (or on a malformed document) the mapping
starts empty. -/
def registryInit (disk : Option (List (String × ModelInfo))) : RegistryState :=
  { models := match disk with
      | some data => loadFromDisk data
      | none => []
    disk := disk }

/-- ModelRegistry._save_registry: rewrites the whole document from
`self.models`. -/
def save_registry (st : RegistryState) : RegistryState :=
  { st with disk := some st.models }

/-- ModelRegistry.register_model. -/
def register_model (st : RegistryState) (model_info : ModelInfo) : RegistryState :=
  save_registry { st with models := dictSet st.models model_info.model_id model_info }

/-- ModelRegistry.get_model. -/
def get_model (st : RegistryState) (model_id : String) : Option ModelInfo :=
  st.models.lookup model_id

/-- ModelRegistry.get_all_models: `self.models.copy()` — in this
value-level model the shallow copy is the same mapping value (the
reference-level consequences of the shallow copy are modelled separately
below with an explicit heap). -/
def get_all_models (st : RegistryState) : List (String × ModelInfo) :=
  st.models

/-- ModelRegistry.update_model: same body as register_model. -/
def update_model (st : RegistryState) (model_info : ModelInfo) : RegistryState :=
  save_registry { st with models := dictSet st.models model_info.model_id model_info }

/-- ModelRegistry.remove_model. -/
def remove_model (st : RegistryState) (model_id : String) : Bool × RegistryState :=
  if (st.models.lookup model_id).isSome then
    (true, save_registry { st with models := dictDel st.models model_id })
  else
    (false, st)

/-- Representation invariant of the registry dict: every entry is stored
under its own model_id (register_model and update_model key by
`model_info.model_id`). -/
def regWF (st : RegistryState) : Bool :=
  st.models.all fun p => p.2.model_id == p.1

end RegistryState

/-- Model config dict handed to download_model / start_download (the
router builds it from ModelConfigBody). `none` models an absent key, so
`cfg.get k` is field access and `cfg.get k default` is `Option.getD`. -/
structure ModelConfig where
  model_id : Option String := none
  model_type : Option String := none
  model_name : Option String := none
  repo_id : Option String := none
  filename : Option String := none
  capabilities : Option (List String) := none
deriving DecidableEq, Repr

/-- Python truthiness of an optional string (`if not model_id`,
`if not repo_id`): `None` and the empty string are falsy. -/
def truthy : Option String → Bool
  | none => false
  | some s => !(s == "")

/-- Download task dict created by ModelLoader.start_download and mutated
in place by `_download_model`. `local_path = none` models the key being
absent before completion. -/
structure DownloadTask where
  model_config : ModelConfig
  status : String
  progress : ℚ
  error : Option String := none
  local_path : Option String := none
deriving DecidableEq, Repr

/-- State of ModelLoader (model_loader.py): the `download_tasks` dict.
`next_id` is the fresh-id supply modelling `uuid.uuid4()` (every id it
hands out is new; `loaderWF` is the corresponding invariant). -/
structure LoaderState where
  download_tasks : List (Nat × DownloadTask)
  next_id : Nat
deriving DecidableEq, Repr

namespace LoaderState

/-- ModelLoader constructor: empty task dict. -/
def loaderInit : LoaderState := { download_tasks := [], next_id := 0 }

/-- Freshness invariant of the uuid supply: every recorded task id was
issued earlier than the next one. -/
def loaderWF (ls : LoaderState) : Bool :=
  ls.download_tasks.all fun p => p.1 < ls.next_id

/-- ModelLoader.start_download: generates a fresh id, records the task
entry with status "downloading" and progress 0.0, spawns the background
thread (`_download_model`, modelled by `run_download` below) and returns
the id at once. No field of the config is validated here. -/
def start_download (ls : LoaderState) (model_config : ModelConfig) :
    Nat × LoaderState :=
  let download_id := ls.next_id
  let task : DownloadTask :=
    { model_config := model_config, status := "downloading", progress := 0,
      error := none, local_path := none }
  (download_id,
   { download_tasks := dictSet ls.download_tasks download_id task,
     next_id := ls.next_id + 1 })

/-- ModelLoader._download_model, the background unit of work for one task
id, with the artifact fetcher (`hf_hub_download` / `snapshot_download`)
abstracted as `fetch`. If `repo_id` is falsy it raises before the fetch
and the handler marks the task failed (progress untouched); otherwise it
sets progress to 0.1, fetches, and marks the task completed (progress 1.0,
local_path set) or failed (progress left at 0.1, error set). The id is
always a key of the dict when the thread runs; the `none` arm is dead. -/
def run_download (fetch : ModelConfig → Except String String)
    (ls : LoaderState) (download_id : Nat) : LoaderState :=
  match ls.download_tasks.lookup download_id with
  | none => ls
  | some t =>
    if truthy t.model_config.repo_id then
      match fetch t.model_config with
      | .ok local_path =>
        let done : DownloadTask :=
          { t with status := "completed", progress := 1,
                   local_path := some local_path }
        { ls with download_tasks := dictSet ls.download_tasks download_id done }
      | .error e =>
        let failed : DownloadTask :=
          { t with status := "failed", progress := 1/10, error := some e }
        { ls with download_tasks := dictSet ls.download_tasks download_id failed }
    else
      let failed : DownloadTask :=
        { t with status := "failed", error := some "repo_id is required" }
      { ls with download_tasks := dictSet ls.download_tasks download_id failed }

/-- ModelLoader.get_download_status. -/
def get_download_status (ls : LoaderState) (download_id : Nat) :
    Option DownloadTask :=
  ls.download_tasks.lookup download_id

end LoaderState

/-- Model-instantiator collaborator (out of scope per the spec): the
bodies of `_load_llm_model` and `_load_embedding_model`, each returning an
opaque handle of type `H` or `none` on any caught failure. -/
structure Instantiator (H : Type) where
  load_llm : ModelInfo → Option H
  load_embedding : ModelInfo → Option H

/-- ModelLoader.load_model: dispatches on `model_type`; any other type is
logged and yields `None`, and every exception is caught and yields
`None`. -/
def loader_load_model {H : Type} (inst : Instantiator H) (model_info : ModelInfo) :
    Option H :=
  if model_info.model_type == "llm" then inst.load_llm model_info
  else if model_info.model_type == "embedding" then inst.load_embedding model_info
  else none

/-- State of ModelManagerComponent (model_manager_component.py): the
loaded-handle map `loaded_models`, the owned registry and loader, and the
dynamic `active_{model_type}_id` attributes as a dict from model_type to
model id. -/
structure ManagerState (H : Type) where
  loaded_models : List (String × H)
  registry : RegistryState
  loader : LoaderState
  active : List (String × String)
deriving DecidableEq, Repr

namespace ManagerState

open RegistryState LoaderState

/-- The ModelInfo that `_initialize_current_models` registers when
`settings.llm.mode != "mock"`. -/
def currentLLMInfo (llm_mode : String) : ModelInfo :=
  { model_id := "current_llm", model_type := "llm",
    model_name := llm_mode ++ "_current", is_loaded := true,
    capabilities := ["chat", "completion"] }

/-- ModelManagerComponent constructor: fresh handle map, registry loaded
from disk, fresh loader, no active-model attributes, then
`_initialize_current_models`. -/
def managerInit (H : Type) (disk : Option (List (String × ModelInfo)))
    (llm_mode : String) : ManagerState H :=
  let reg := registryInit disk
  { loaded_models := [],
    registry := if llm_mode == "mock" then reg
                else reg.register_model (currentLLMInfo llm_mode),
    loader := loaderInit,
    active := [] }

/-- ModelManagerComponent.get_model: unlocked read-through of the handle
map. -/
def get_model {H : Type} (st : ManagerState H) (model_id : String) : Option H :=
  st.loaded_models.lookup model_id

/-- ModelManagerComponent.list_available_models. -/
def list_available_models {H : Type} (st : ManagerState H) :
    List (String × ModelInfo) :=
  st.registry.get_all_models

/-- ModelManagerComponent.list_loaded_models: filters the registry
entries to those with `is_loaded`. -/
def list_loaded_models {H : Type} (st : ManagerState H) :
    List (String × ModelInfo) :=
  st.registry.get_all_models.filter fun p => p.2.is_loaded

/-- ModelManagerComponent.download_model: requires a truthy model_id
(raises "model_id is required" otherwise), registers the model as
downloading (is_loaded false), then starts the background download and
returns its id. -/
def download_model {H : Type} (st : ManagerState H) (model_config : ModelConfig) :
    Except String Nat × ManagerState H :=
  if truthy model_config.model_id then
    let mid := model_config.model_id.getD ""
    let model_info : ModelInfo :=
      { model_id := mid,
        model_type := model_config.model_type.getD "llm",
        model_name := model_config.model_name.getD mid,
        is_downloading := true,
        capabilities := model_config.capabilities.getD [] }
    let reg := st.registry.register_model model_info
    let res := st.loader.start_download model_config
    (.ok res.1, { st with registry := reg, loader := res.2 })
  else
    (.error "model_id is required", st)

/-- ModelManagerComponent.load_model: under the lock — not-found raises;
an already-loaded entry returns True at once; otherwise the instantiator
runs, and on success the handle is stored, `is_loaded` set and persisted
via update_model; on instantiator failure returns False unchanged. -/
def load_model {H : Type} (inst : Instantiator H) (st : ManagerState H)
    (model_id : String) : Except String Bool × ManagerState H :=
  match st.registry.get_model model_id with
  | none => (.error ("Model " ++ model_id ++ " not found in registry"), st)
  | some model_info =>
    if model_info.is_loaded then (.ok true, st)
    else
      match loader_load_model inst model_info with
      | some h =>
        let info2 : ModelInfo := { model_info with is_loaded := true }
        (.ok true,
         { st with
             loaded_models := dictSet st.loaded_models model_id h,
             registry := st.registry.update_model info2 })
      | none => (.ok false, st)

/-- ModelManagerComponent.unload_model: under the lock — a missing handle
returns False as a no-op; otherwise the handle is removed and, if a
registry entry exists, its `is_loaded` is cleared and persisted. -/
def unload_model {H : Type} (st : ManagerState H) (model_id : String) :
    Bool × ManagerState H :=
  if (st.loaded_models.lookup model_id).isSome then
    let lm := dictDel st.loaded_models model_id
    match st.registry.get_model model_id with
    | some model_info =>
      let info2 : ModelInfo := { model_info with is_loaded := false }
      (true,
       { st with loaded_models := lm,
                 registry := st.registry.update_model info2 })
    | none => (true, { st with loaded_models := lm })
  else
    (false, st)

/-- ModelManagerComponent.switch_active_model: if no handle is loaded it
calls load_model — whose not-found ValueError propagates uncaught — and
returns False if the load returned False; otherwise it records the active
id for the type (setattr on `active_{model_type}_id`) and returns True. -/
def switch_active_model {H : Type} (inst : Instantiator H) (st : ManagerState H)
    (model_id : String) (model_type : String) : Except String Bool × ManagerState H :=
  if (st.get_model model_id).isSome then
    (.ok true, { st with active := dictSet st.active model_type model_id })
  else
    match load_model inst st model_id with
    | (.error e, st') => (.error e, st')
    | (.ok b, st') =>
      if b then (.ok true, { st' with active := dictSet st'.active model_type model_id })
      else (.ok false, st')

/-- ModelManagerComponent.get_active_model: reads the
`active_{model_type}_id` attribute (absent, hence `None`, until a switch
sets it); a falsy id yields `None`, otherwise get_model. -/
def get_active_model {H : Type} (st : ManagerState H) (model_type : String) :
    Option H :=
  match st.active.lookup model_type with
  | some active_id => if active_id == "" then none else st.get_model active_id
  | none => none

end ManagerState

/-!
Reference-level model of `ModelRegistry.get_all_models` for the
shallow-copy question. In CPython, `self.models` maps model_id strings to
references to ModelInfo objects living on the heap, and `dict.copy()` is a
shallow copy: a new dict holding the same references. We model the heap
explicitly as a map from addresses to ModelInfo values.
-/

/-- Python object address. -/
abbrev Addr := Nat

/-- The registry mapping at reference level: model_id to the address of
the ModelInfo object. -/
structure RegistryRefs where
  modelsR : List (String × Addr)
deriving DecidableEq, Repr

/-- ModelRegistry.get_all_models at reference level: `self.models.copy()`
is a new dict with the same (key, reference) pairs; in this value-level
rendering of the dict it is the same association list, and no ModelInfo
object is duplicated. -/
def get_all_modelsRefs (reg : RegistryRefs) : List (String × Addr) :=
  reg.modelsR

/-- In-place mutation of the ModelInfo object stored at address `a`
(e.g. a caller writing `info.is_loaded = True` on an entry of the mapping
returned by get_all_models). -/
def heapWrite (heap : List (Addr × ModelInfo)) (a : Addr)
    (f : ModelInfo → ModelInfo) : List (Addr × ModelInfo) :=
  match heap.lookup a with
  | some v => dictSet heap a (f v)
  | none => heap

/-- The ModelInfo the registry presents for `model_id` under heap `heap`:
what `ModelRegistry.get_model` dereferences. -/
def registryView (heap : List (Addr × ModelInfo)) (reg : RegistryRefs)
    (model_id : String) : Option ModelInfo :=
  (reg.modelsR.lookup model_id).bind heap.lookup

/-!
Manager operation traces, for reasoning about what holds of every state
reachable from construction (the state-mutating entry points reachable
from the HTTP layer: download_model, load_model, unload_model,
switch_active_model).
-/

/-- One state-mutating Manager call. -/
inductive Cmd where
  | download (model_config : ModelConfig)
  | load (model_id : String)
  | unload (model_id : String)
  | switch (model_id : String) (model_type : String)
deriving DecidableEq, Repr

namespace ManagerState

/-- Resulting state of one Manager call (for a call that raises, the state
at the raise point). -/
def step {H : Type} (inst : Instantiator H) (st : ManagerState H) :
    Cmd → ManagerState H
  | .download cfg => (download_model st cfg).2
  | .load mid => (load_model inst st mid).2
  | .unload mid => (unload_model st mid).2
  | .switch mid mt => (switch_active_model inst st mid mt).2

/-- Run a sequence of Manager calls from a state. -/
def run {H : Type} (inst : Instantiator H) (st : ManagerState H) :
    List Cmd → ManagerState H
  | [] => st
  | c :: cs => run inst (step inst st c) cs

/-- Whether, along the trace from `st`, some switch_active_model call for
model type `mt` returns True. -/
def switchSucceeded {H : Type} (inst : Instantiator H) (st : ManagerState H)
    (mt : String) : List Cmd → Bool
  | [] => false
  | c :: cs =>
    (match c with
     | .switch mid mt2 =>
       mt2 == mt &&
         (match (switch_active_model inst st mid mt2).1 with
          | .ok true => true
          | _ => false)
     | _ => false) || switchSucceeded inst (step inst st c) mt cs

end ManagerState

/-!
Concrete data used to evaluate the definitions on closed inputs:
instantiators over `H := Nat` (handles are opaque; numbers stand for the
constructed model objects), sample ModelInfo records and states.
-/

/-- Instantiator whose collaborator calls always succeed. -/
def instOk : Instantiator Nat := ⟨fun _ => some 1, fun _ => some 2⟩

/-- Instantiator whose collaborator calls always fail. -/
def instFail : Instantiator Nat := ⟨fun _ => none, fun _ => none⟩

/-- A registered, not-loaded llm model. -/
def infoM : ModelInfo := { model_id := "m", model_type := "llm", model_name := "M" }

/-- The same model with is_loaded set. -/
def infoMLoaded : ModelInfo := { infoM with is_loaded := true }

/-- A model of the unsupported type "analysis". -/
def infoAnalysis : ModelInfo :=
  { model_id := "a", model_type := "analysis", model_name := "A" }

/-- A ModelInfo with every optional field populated. -/
def infoFull : ModelInfo :=
  { model_id := "f", model_type := "embedding", model_name := "F",
    model_path := some "/models/f", is_loaded := true, is_downloading := true,
    size_gb := some (7/2), capabilities := ["x", "y"] }

/-- Manager state with "m" registered as loaded and handle 7 in the map. -/
def stMLoaded : ManagerState Nat :=
  { loaded_models := [("m", 7)],
    registry := { models := [("m", infoMLoaded)], disk := some [("m", infoMLoaded)] },
    loader := LoaderState.loaderInit,
    active := [] }

/-- Manager state with "a" registered (type "analysis", not loaded) and an
empty handle map. -/
def stAnalysis : ManagerState Nat :=
  { loaded_models := [],
    registry := { models := [("a", infoAnalysis)], disk := some [("a", infoAnalysis)] },
    loader := LoaderState.loaderInit,
    active := [] }

/-- Registry state holding one unrelated entry. -/
def regOne : RegistryState :=
  { models := [("m", infoM)], disk := some [("m", infoM)] }

/-- A valid model config: model_id and repo_id both present. -/
def cfgValid : ModelConfig :=
  { model_id := some "m", model_type := some "llm", model_name := some "M",
    repo_id := some "org/repo", filename := none, capabilities := some [] }

/-- A model config whose repository identifier is absent. -/
def cfgNoRepo : ModelConfig :=
  { model_id := some "m2", model_type := some "llm", model_name := some "M2",
    repo_id := none, filename := none, capabilities := some [] }

/-- Artifact fetcher that always succeeds with a fixed path. -/
def fetchOk : ModelConfig → Except String String := fun _ => .ok "/models/m"

/-- Artifact fetcher that always fails. -/
def fetchErr : ModelConfig → Except String String := fun _ => .error "network down"

/-- Manager state with an empty registry and nothing loaded. -/
def stEmpty : ManagerState Nat := ManagerState.managerInit Nat none "mock"

/-- Heap with one ModelInfo object at address 0. -/
def heapOne : List (Addr × ModelInfo) := [(0, infoM)]

/-- Reference-level registry mapping "m" to that object. -/
def regRefsOne : RegistryRefs := { modelsR := [("m", 0)] }

/-- In-place mutation setting is_loaded on a ModelInfo object. -/
def setLoadedTrue : ModelInfo → ModelInfo := fun i => { i with is_loaded := true }

/-- Persisted document for the C1 scenario: "m" registered, not loaded. -/
def c1Disk : List (String × ModelInfo) := [("m", infoM)]

/-- C1 scenario, step 0: manager constructed over that document (mock llm
mode, so no current_llm entry). -/
def c1St0 : ManagerState Nat := ManagerState.managerInit Nat (some c1Disk) "mock"

/-- C1 scenario, step 1: after a successful load_model "m". -/
def c1St1 : ManagerState Nat := (ManagerState.load_model instOk c1St0 "m").2

/-- C1 scenario, step 2: after download_model of a valid config for the
same id "m". -/
def c1St2 : ManagerState Nat := (ManagerState.download_model c1St1 cfgValid).2

/-! Basic lemmas about the dict operations. -/

theorem lookup_dictSet_self {κ α : Type} [DecidableEq κ]
    (l : List (κ × α)) (k : κ) (v : α) :
    (dictSet l k v).lookup k = some v := by
  induction l with
  | nil => simp [dictSet, List.lookup]
  | cons p rest ih =>
    by_cases h : p.1 = k
    · simp [dictSet, h, List.lookup]
    · simp [dictSet, h, List.lookup, ih, beq_false_of_ne (Ne.symm h)]

theorem lookup_dictSet_ne {κ α : Type} [DecidableEq κ]
    (l : List (κ × α)) (k k2 : κ) (v : α) (h : k2 ≠ k) :
    (dictSet l k v).lookup k2 = l.lookup k2 := by
  induction l with
  | nil => simp [dictSet, List.lookup, beq_false_of_ne h]
  | cons p rest ih =>
    by_cases hp : p.1 = k
    · subst hp
      simp [dictSet, List.lookup, beq_false_of_ne h]
    · simp only [dictSet, if_neg hp]
      cases hk2 : (k2 == p.1) <;> simp [List.lookup, hk2, ih]

theorem lookup_dictDel_self {κ α : Type} [DecidableEq κ]
    (l : List (κ × α)) (k : κ) :
    (dictDel l k).lookup k = none := by
  induction l with
  | nil => simp [dictDel, List.lookup]
  | cons p rest ih =>
    by_cases h : p.1 = k
    · simpa [dictDel, h] using ih
    · simp [dictDel, List.filter, beq_false_of_ne h, List.lookup,
            beq_false_of_ne (Ne.symm h)]
      simpa [dictDel] using ih

theorem lookup_dictDel_ne {κ α : Type} [DecidableEq κ]
    (l : List (κ × α)) (k k2 : κ) (h : k2 ≠ k) :
    (dictDel l k).lookup k2 = l.lookup k2 := by
  induction l with
  | nil => simp [dictDel]
  | cons p rest ih =>
    by_cases hp : p.1 = k
    · subst hp
      simp [dictDel, List.filter, List.lookup, beq_false_of_ne h]
      simpa [dictDel] using ih
    · by_cases hk2 : k2 = p.1
      · subst hk2
        simp [dictDel, List.filter, beq_false_of_ne hp, List.lookup]
      · simp [dictDel, List.filter, beq_false_of_ne hp, List.lookup,
              beq_false_of_ne hk2]
        simpa [dictDel] using ih

theorem mem_keys_dictSet {κ α : Type} [DecidableEq κ]
    (l : List (κ × α)) (k x : κ) (v : α) :
    x ∈ (dictSet l k v).map Prod.fst ↔ x ∈ l.map Prod.fst ∨ x = k := by
  induction l with
  | nil => simp [dictSet]
  | cons p rest ih =>
    by_cases hp : p.1 = k
    · subst hp
      simp only [dictSet, if_pos, List.map_cons, List.mem_cons]
      tauto
    · simp only [dictSet, if_neg hp, List.map_cons, List.mem_cons, ih]
      tauto

theorem nodup_keys_dictSet {κ α : Type} [DecidableEq κ]
    (l : List (κ × α)) (k : κ) (v : α)
    (h : (l.map Prod.fst).Nodup) :
    ((dictSet l k v).map Prod.fst).Nodup := by
  induction l with
  | nil => simp [dictSet]
  | cons p rest ih =>
    simp only [List.map_cons, List.nodup_cons] at h
    by_cases hp : p.1 = k
    · subst hp
      simpa [dictSet] using h
    · simp only [dictSet, if_neg hp, List.map_cons, List.nodup_cons]
      refine ⟨?_, ih h.2⟩
      rw [mem_keys_dictSet]
      rintro (hx | rfl)
      · exact h.1 hx
      · exact hp rfl

theorem mem_of_lookup_eq_some {κ α : Type} [DecidableEq κ]
    {l : List (κ × α)} {k : κ} {v : α} (h : l.lookup k = some v) :
    (k, v) ∈ l := by
  induction l with
  | nil => simp [List.lookup] at h
  | cons p rest ih =>
    rw [List.lookup] at h
    revert h
    cases hk : k == p.1 with
    | true =>
      intro h
      have hk2 : k = p.1 := by exact_mod_cast eq_of_beq hk
      simp only [Option.some.injEq] at h
      subst hk2
      subst h
      exact List.mem_cons_self _ _
    | false =>
      intro h
      exact List.mem_cons_of_mem _ (ih h)

theorem regWF_lookup {st : RegistryState} (h : st.regWF = true)
    {k : String} {v : ModelInfo} (hl : st.models.lookup k = some v) :
    v.model_id = k := by
  have hmem := mem_of_lookup_eq_some hl
  rw [RegistryState.regWF, List.all_eq_true] at h
  have hb := h _ hmem
  simp only [beq_iff_eq] at hb
  exact hb

theorem lookup_fold_dictSet {κ α : Type} [DecidableEq κ]
    (l : List (κ × α)) (acc : List (κ × α)) (k : κ)
    (hnd : (l.map Prod.fst).Nodup) :
    (l.foldl (fun m kv => dictSet m kv.1 kv.2) acc).lookup k =
      if k ∈ l.map Prod.fst then l.lookup k else acc.lookup k := by
  induction l generalizing acc with
  | nil => simp
  | cons p rest ih =>
    simp only [List.map_cons, List.nodup_cons] at hnd
    rw [List.foldl_cons, ih _ hnd.2]
    by_cases hk : k ∈ rest.map Prod.fst
    · have hkp : ¬ k = p.1 := fun he => hnd.1 (he ▸ hk)
      simp [hk, List.lookup, beq_false_of_ne hkp, List.mem_cons]
    · by_cases hkp : k = p.1
      · subst hkp
        simp [hk, List.lookup, lookup_dictSet_self]
      · simp [hk, List.lookup, beq_false_of_ne hkp, List.mem_cons, hkp,
              lookup_dictSet_ne _ _ _ _ hkp]

/-! Claim theorems. -/

/-- C8: persistence round-trip — for every ModelInfo `info`,
`register_model info` followed by a restart-equivalent reload of the
registry from its persisted document yields an entry for `info.model_id`
equal to `info` in all fields (the hypothesis is the dict representation
invariant that the in-memory mapping holds no duplicate key). -/
theorem c8_register_roundtrip (st : RegistryState) (info : ModelInfo)
    (hnd : (st.models.map Prod.fst).Nodup) :
    (RegistryState.registryInit (st.register_model info).disk).get_model
        info.model_id = some info := by
  show ((RegistryState.loadFromDisk
      (dictSet st.models info.model_id info)).lookup info.model_id) = some info
  rw [RegistryState.loadFromDisk,
      lookup_fold_dictSet _ _ _ (nodup_keys_dictSet _ _ _ hnd),
      if_pos ((mem_keys_dictSet _ _ _ _).2 (Or.inr rfl)),
      lookup_dictSet_self]

/-- Witness for C8 at a concrete registry and a fully populated
ModelInfo. -/
theorem c8_register_roundtrip_witness :
    (regOne.models.map Prod.fst).Nodup ∧
      (RegistryState.registryInit (regOne.register_model infoFull).disk).get_model
        "f" = some infoFull :=
  ⟨by decide, c8_register_roundtrip regOne infoFull (by decide)⟩

/-- C7: load_model is idempotent on an already-loaded model — it returns
True with the state unchanged and its outcome is independent of the
instantiator collaborator (the collaborator is not invoked) — and
load_model of a model_id absent from the registry raises the not-found
error. -/
theorem c7_load_idempotent_and_notfound {H : Type} (inst inst2 : Instantiator H)
    (st : ManagerState H) (mid : String) :
    (st.registry.get_model mid = none →
      ManagerState.load_model inst st mid =
        (.error ("Model " ++ mid ++ " not found in registry"), st)) ∧
    (∀ info, st.registry.get_model mid = some info → info.is_loaded = true →
      ManagerState.load_model inst st mid = (.ok true, st) ∧
      ManagerState.load_model inst st mid = ManagerState.load_model inst2 st mid) := by
  constructor
  · intro h
    unfold ManagerState.load_model
    rw [h]
  · intro info h hl
    unfold ManagerState.load_model
    rw [h]
    simp [hl]

/-- Witness for C7: a state where "m" is loaded, two instantiators that
disagree everywhere, and an id "ghost" absent from the registry. -/
theorem c7_load_idempotent_and_notfound_witness :
    (stMLoaded.registry.get_model "m" = some infoMLoaded ∧
      infoMLoaded.is_loaded = true ∧
      ManagerState.load_model instOk stMLoaded "m" = (.ok true, stMLoaded) ∧
      ManagerState.load_model instOk stMLoaded "m" =
        ManagerState.load_model instFail stMLoaded "m") ∧
    (stMLoaded.registry.get_model "ghost" = none ∧
      ManagerState.load_model instOk stMLoaded "ghost" =
        (.error "Model ghost not found in registry", stMLoaded)) :=
  ⟨⟨by decide, by decide,
    ((c7_load_idempotent_and_notfound instOk instFail stMLoaded "m").2
      infoMLoaded (by decide) (by decide)).1,
    ((c7_load_idempotent_and_notfound instOk instFail stMLoaded "m").2
      infoMLoaded (by decide) (by decide)).2⟩,
   ⟨by decide,
    (c7_load_idempotent_and_notfound instOk instFail stMLoaded "ghost").1
      (by decide)⟩⟩

/-- C3: for a model_id present in the registry with is_loaded=false, if
the model-instantiator collaborator fails (loader_load_model yields none,
which covers an unsupported model_type), load_model returns False and the
whole Manager state — handle map, registry mapping and persisted document
— is unchanged. -/
theorem c3_load_failure_no_mutation {H : Type} (inst : Instantiator H)
    (st : ManagerState H) (mid : String) (info : ModelInfo)
    (hreg : st.registry.get_model mid = some info)
    (hnl : info.is_loaded = false)
    (hfail : loader_load_model inst info = none) :
    ManagerState.load_model inst st mid = (.ok false, st) := by
  unfold ManagerState.load_model
  rw [hreg]
  simp [hnl, hfail]

/-- Witness for C3: the unsupported type "analysis" makes the loader fail
even under an instantiator whose collaborators always succeed. -/
theorem c3_load_failure_no_mutation_witness :
    stAnalysis.registry.get_model "a" = some infoAnalysis ∧
      infoAnalysis.is_loaded = false ∧
      loader_load_model instOk infoAnalysis = none ∧
      ManagerState.load_model instOk stAnalysis "a" = (.ok false, stAnalysis) :=
  ⟨by decide, by decide, by decide,
   c3_load_failure_no_mutation instOk stAnalysis "a" infoAnalysis
     (by decide) (by decide) (by decide)⟩

/-- C6: unload_model on a model_id with no handle returns False as a
no-op (no error, state untouched); on a model_id with a handle it removes
the handle and returns True, so get_model then yields none, and when a
registry entry exists its is_loaded is cleared in the mapping and in the
persisted document (hypothesis: the registry keys its entries by their own
model_id, the dict representation invariant). -/
theorem c6_unload_spec {H : Type} (st : ManagerState H) (mid : String)
    (hwf : st.registry.regWF = true) :
    (st.loaded_models.lookup mid = none →
      ManagerState.unload_model st mid = (false, st)) ∧
    ((st.loaded_models.lookup mid).isSome = true →
      (ManagerState.unload_model st mid).1 = true ∧
      ManagerState.get_model (ManagerState.unload_model st mid).2 mid = none ∧
      (∀ info, st.registry.get_model mid = some info →
        (ManagerState.unload_model st mid).2.registry.models.lookup mid =
          some { info with is_loaded := false } ∧
        (ManagerState.unload_model st mid).2.registry.disk =
          some (ManagerState.unload_model st mid).2.registry.models) ∧
      (st.registry.get_model mid = none →
        (ManagerState.unload_model st mid).2.registry = st.registry)) := by
  constructor
  · intro h
    unfold ManagerState.unload_model
    simp [h]
  · intro h
    unfold ManagerState.unload_model
    rw [if_pos h]
    cases hr : st.registry.get_model mid with
    | some info =>
      have hid : info.model_id = mid := regWF_lookup hwf hr
      refine ⟨rfl, ?_, ?_, ?_⟩
      · show (dictDel st.loaded_models mid).lookup mid = none
        exact lookup_dictDel_self _ _
      · intro info2 hr2
        injection hr2 with h2
        subst h2
        refine ⟨?_, rfl⟩
        show (dictSet st.registry.models
            ({ info with is_loaded := false } : ModelInfo).model_id
            { info with is_loaded := false }).lookup mid = _
        have h3 : ({ info with is_loaded := false } : ModelInfo).model_id = mid := hid
        rw [h3, lookup_dictSet_self]
      · intro hnone
        exact Option.noConfusion hnone
    | none =>
      refine ⟨rfl, ?_, ?_, ?_⟩
      · show (dictDel st.loaded_models mid).lookup mid = none
        exact lookup_dictDel_self _ _
      · intro info2 hr2
        exact Option.noConfusion hr2
      · intro _
        rfl

/-- Witness for C6: unloading the loaded "m" succeeds and clears the
flag in memory and on disk; unloading the never-loaded "ghost" returns
False unchanged. -/
theorem c6_unload_spec_witness :
    (stMLoaded.registry.regWF = true ∧
      stMLoaded.loaded_models.lookup "ghost" = none ∧
      ManagerState.unload_model stMLoaded "ghost" = (false, stMLoaded)) ∧
    ((stMLoaded.loaded_models.lookup "m").isSome = true ∧
      stMLoaded.registry.get_model "m" = some infoMLoaded ∧
      (ManagerState.unload_model stMLoaded "m").1 = true ∧
      ManagerState.get_model (ManagerState.unload_model stMLoaded "m").2 "m" = none ∧
      (ManagerState.unload_model stMLoaded "m").2.registry.models.lookup "m" =
        some { infoMLoaded with is_loaded := false } ∧
      (ManagerState.unload_model stMLoaded "m").2.registry.disk =
        some (ManagerState.unload_model stMLoaded "m").2.registry.models) :=
  ⟨⟨by decide, by decide,
    (c6_unload_spec stMLoaded "ghost" (by decide)).1 (by decide)⟩,
   ⟨by decide, by decide,
    ((c6_unload_spec stMLoaded "m" (by decide)).2 (by decide)).1,
    ((c6_unload_spec stMLoaded "m" (by decide)).2 (by decide)).2.1,
    (((c6_unload_spec stMLoaded "m" (by decide)).2 (by decide)).2.2.1
      infoMLoaded (by decide)).1,
    (((c6_unload_spec stMLoaded "m" (by decide)).2 (by decide)).2.2.1
      infoMLoaded (by decide)).2⟩⟩

/-- Lookup of the next fresh id fails: every recorded task id is below
next_id. -/
theorem lookup_next_id_none (ls : LoaderState) (hwf : ls.loaderWF = true) :
    ls.download_tasks.lookup ls.next_id = none := by
  cases hl : ls.download_tasks.lookup ls.next_id with
  | none => rfl
  | some t =>
    have hmem := mem_of_lookup_eq_some hl
    rw [LoaderState.loaderWF, List.all_eq_true] at hwf
    have := hwf _ hmem
    simp at this

/-- C9: for a valid model config (truthy model_id and repo_id),
download_model returns a task id never issued before (no recorded task has
it), and looking the id up immediately afterwards — before the background
unit of work runs — gives a task with status "downloading" and progress
in [0, 0.1] (namely 0). Hypothesis loaderWF is the freshness invariant of
the uuid supply. -/
theorem c9_download_returns_fresh_downloading {H : Type}
    (st : ManagerState H) (cfg : ModelConfig)
    (hid : truthy cfg.model_id = true)
    (_hrepo : truthy cfg.repo_id = true)
    (hwf : st.loader.loaderWF = true) :
    (ManagerState.download_model st cfg).1 = .ok st.loader.next_id ∧
    st.loader.get_download_status st.loader.next_id = none ∧
    (ManagerState.download_model st cfg).2.loader.get_download_status
        st.loader.next_id =
      some { model_config := cfg, status := "downloading", progress := 0,
             error := none, local_path := none } ∧
    (∀ t, (ManagerState.download_model st cfg).2.loader.get_download_status
        st.loader.next_id = some t →
      t.status = "downloading" ∧ 0 ≤ t.progress ∧ t.progress ≤ 1/10) := by
  unfold ManagerState.download_model
  rw [if_pos hid]
  refine ⟨rfl, lookup_next_id_none _ hwf, ?_, ?_⟩
  · show (dictSet st.loader.download_tasks st.loader.next_id _).lookup
        st.loader.next_id = _
    rw [lookup_dictSet_self]
  · intro t ht
    have : (dictSet st.loader.download_tasks st.loader.next_id
        { model_config := cfg, status := "downloading", progress := 0,
          error := none, local_path := none }).lookup st.loader.next_id =
        some t := ht
    rw [lookup_dictSet_self] at this
    cases this
    refine ⟨rfl, le_refl _, by norm_num⟩

/-- Witness for C9: a fresh manager downloading a valid config receives
task id 0 and an immediate status of downloading at progress 0. -/
theorem c9_download_returns_fresh_downloading_witness :
    truthy cfgValid.model_id = true ∧ truthy cfgValid.repo_id = true ∧
    stEmpty.loader.loaderWF = true ∧
    (ManagerState.download_model stEmpty cfgValid).1 = .ok 0 ∧
    (ManagerState.download_model stEmpty cfgValid).2.loader.get_download_status 0 =
      some { model_config := cfgValid, status := "downloading", progress := 0,
             error := none, local_path := none } := by
  refine ⟨by decide, by decide, by decide, ?_, ?_⟩
  · exact (c9_download_returns_fresh_downloading stEmpty cfgValid
      (by decide) (by decide) (by decide)).1
  · exact (c9_download_returns_fresh_downloading stEmpty cfgValid
      (by decide) (by decide) (by decide)).2.2.1

/-- C2 counterexample: for the concrete config `cfgNoRepo`, whose
repository identifier is absent, start_download does not fail — it
returns task id 0 and a task entry is recorded (status "downloading"),
contradicting the claim that no task entry is recorded and no task id is
returned for such a config. -/
theorem c2_counterexample :
    (LoaderState.loaderInit.start_download cfgNoRepo).1 = 0 ∧
    (LoaderState.loaderInit.start_download cfgNoRepo).2.get_download_status 0 =
      some { model_config := cfgNoRepo, status := "downloading", progress := 0,
             error := none, local_path := none } := by
  exact ⟨rfl, by decide⟩

/-- C2 amended: start_download performs no synchronous repo_id
validation: even for a config whose repository identifier is absent it
records a task with status "downloading" and returns a fresh task id; the
invalid-config failure happens in the background unit of work, which
marks that task failed with error "repo_id is required" without invoking
the artifact fetcher (its outcome is the same for every fetcher). -/
theorem c2_amended_async_repoid_failure (ls : LoaderState) (cfg : ModelConfig)
    (hrepo : truthy cfg.repo_id = false) :
    (ls.start_download cfg).1 = ls.next_id ∧
    (ls.start_download cfg).2.get_download_status ls.next_id =
      some { model_config := cfg, status := "downloading", progress := 0,
             error := none, local_path := none } ∧
    (∀ fetch : ModelConfig → Except String String,
      (LoaderState.run_download fetch (ls.start_download cfg).2
          ls.next_id).get_download_status ls.next_id =
        some { model_config := cfg, status := "failed", progress := 0,
               error := some "repo_id is required", local_path := none }) ∧
    (∀ fetch fetch2 : ModelConfig → Except String String,
      LoaderState.run_download fetch (ls.start_download cfg).2 ls.next_id =
        LoaderState.run_download fetch2 (ls.start_download cfg).2 ls.next_id) := by
  have hlook : (ls.start_download cfg).2.download_tasks.lookup ls.next_id =
      some { model_config := cfg, status := "downloading", progress := 0,
             error := none, local_path := none } := by
    show (dictSet ls.download_tasks ls.next_id _).lookup ls.next_id = _
    rw [lookup_dictSet_self]
  refine ⟨rfl, hlook, ?_, ?_⟩
  · intro fetch
    unfold LoaderState.run_download
    rw [hlook]
    simp only [hrepo, Bool.false_eq_true, if_false]
    show (dictSet (ls.start_download cfg).2.download_tasks ls.next_id _).lookup
        ls.next_id = _
    rw [lookup_dictSet_self]
  · intro fetch fetch2
    unfold LoaderState.run_download
    rw [hlook]
    simp [hrepo]

/-- Witness for C2 amended: the concrete no-repo config under two
disagreeing fetchers. -/
theorem c2_amended_async_repoid_failure_witness :
    truthy cfgNoRepo.repo_id = false ∧
    (LoaderState.loaderInit.start_download cfgNoRepo).1 = 0 ∧
    (LoaderState.run_download fetchOk
        (LoaderState.loaderInit.start_download cfgNoRepo).2 0).get_download_status 0 =
      some { model_config := cfgNoRepo, status := "failed", progress := 0,
             error := some "repo_id is required", local_path := none } ∧
    LoaderState.run_download fetchOk
        (LoaderState.loaderInit.start_download cfgNoRepo).2 0 =
      LoaderState.run_download fetchErr
        (LoaderState.loaderInit.start_download cfgNoRepo).2 0 :=
  ⟨by decide,
   (c2_amended_async_repoid_failure LoaderState.loaderInit cfgNoRepo (by decide)).1,
   (c2_amended_async_repoid_failure LoaderState.loaderInit cfgNoRepo (by decide)).2.2.1
     fetchOk,
   (c2_amended_async_repoid_failure LoaderState.loaderInit cfgNoRepo (by decide)).2.2.2
     fetchOk fetchErr⟩

/-- Helper: load_model either returns True, or leaves the state unchanged
(raise on not-found, or False on instantiator failure). -/
theorem load_model_cases {H : Type} (inst : Instantiator H)
    (st : ManagerState H) (mid : String) :
    (ManagerState.load_model inst st mid).1 = .ok true ∨
    (ManagerState.load_model inst st mid).2 = st := by
  unfold ManagerState.load_model
  cases hr : st.registry.get_model mid with
  | none => exact Or.inr rfl
  | some info =>
    by_cases hl : info.is_loaded
    · simp [hl]
    · simp only [hl, Bool.false_eq_true, if_false]
      cases hi : loader_load_model inst info with
      | some handle => simp
      | none => exact Or.inr rfl

/-- C4 counterexample: for the concrete manager state `stEmpty` (empty
registry, nothing loaded) and the id "ghost" absent from the registry,
switch_active_model propagates the not-found error raised by load_model
instead of returning False as the claim states. -/
theorem c4_counterexample :
    ManagerState.switch_active_model instOk stEmpty "ghost" "llm" =
      (.error "Model ghost not found in registry", stEmpty) := by
  rfl

/-- C4 amended: switch_active_model attempts load_model first when no
handle is loaded; if that load returns False it returns False with the
state unchanged, and on success (or when a handle was already loaded) it
records modelId as the active id for modelType and returns True — but for
a modelId absent from the registry the not-found error raised by
load_model propagates out of switch_active_model rather than producing
False. -/
theorem c4_switch_semantics {H : Type} (inst : Instantiator H)
    (st : ManagerState H) (mid mt : String) :
    ((st.get_model mid).isSome = true →
      ManagerState.switch_active_model inst st mid mt =
        (.ok true, { st with active := dictSet st.active mt mid })) ∧
    (st.get_model mid = none →
      (st.registry.get_model mid = none →
        ManagerState.switch_active_model inst st mid mt =
          (.error ("Model " ++ mid ++ " not found in registry"), st)) ∧
      (∀ e, (ManagerState.load_model inst st mid).1 = .error e →
        ManagerState.switch_active_model inst st mid mt = (.error e, st)) ∧
      ((ManagerState.load_model inst st mid).1 = .ok false →
        ManagerState.switch_active_model inst st mid mt = (.ok false, st)) ∧
      ((ManagerState.load_model inst st mid).1 = .ok true →
        ManagerState.switch_active_model inst st mid mt =
          (.ok true, { (ManagerState.load_model inst st mid).2 with
              active := dictSet (ManagerState.load_model inst st mid).2.active
                mt mid }))) := by
  constructor
  · intro hs
    unfold ManagerState.switch_active_model
    rw [if_pos hs]
  · intro hn
    have hns : (st.get_model mid).isSome = false := by rw [hn]; rfl
    have hcase :
        (∀ e, (ManagerState.load_model inst st mid).1 = .error e →
          ManagerState.switch_active_model inst st mid mt = (.error e, st)) ∧
        ((ManagerState.load_model inst st mid).1 = .ok false →
          ManagerState.switch_active_model inst st mid mt = (.ok false, st)) ∧
        ((ManagerState.load_model inst st mid).1 = .ok true →
          ManagerState.switch_active_model inst st mid mt =
            (.ok true, { (ManagerState.load_model inst st mid).2 with
                active := dictSet (ManagerState.load_model inst st mid).2.active
                  mt mid })) := by
      unfold ManagerState.switch_active_model
      rw [if_neg (by simp [hns])]
      rcases hL : ManagerState.load_model inst st mid with ⟨r, s2⟩
      refine ⟨?_, ?_, ?_⟩
      · intro e he
        have her : r = Except.error e := he
        subst her
        have hframe : s2 = st := by
          rcases load_model_cases inst st mid with hc | hc <;> rw [hL] at hc
          · exact absurd hc (by intro hx; exact Except.noConfusion hx)
          · exact hc
        subst hframe
        rfl
      · intro he
        have her : r = Except.ok false := he
        subst her
        have hframe : s2 = st := by
          rcases load_model_cases inst st mid with hc | hc <;> rw [hL] at hc
          · exact absurd hc (by intro hx; simp at hx)
          · exact hc
        subst hframe
        rfl
      · intro he
        have her : r = Except.ok true := he
        subst her
        rfl
    refine ⟨?_, hcase⟩
    intro hreg
    have hErr : (ManagerState.load_model inst st mid).1 =
        .error ("Model " ++ mid ++ " not found in registry") := by
      unfold ManagerState.load_model
      rw [hreg]
    exact hcase.1 _ hErr

/-- Witness for C4 amended: loading "a" (unsupported type) fails so the
switch returns False unchanged; a loaded "m" switches at once and records
the active id. -/
theorem c4_switch_semantics_witness :
    (stAnalysis.get_model "a" = none ∧
      (ManagerState.load_model instOk stAnalysis "a").1 = .ok false ∧
      ManagerState.switch_active_model instOk stAnalysis "a" "llm" =
        (.ok false, stAnalysis)) ∧
    ((stMLoaded.get_model "m").isSome = true ∧
      ManagerState.switch_active_model instOk stMLoaded "m" "llm" =
        (.ok true, { stMLoaded with active := dictSet stMLoaded.active "llm" "m" })) :=
  ⟨⟨by decide, rfl,
    ((c4_switch_semantics instOk stAnalysis "a" "llm").2 (by decide)).2.2.1
      rfl⟩,
   ⟨by decide,
    (c4_switch_semantics instOk stMLoaded "m" "llm").1 (by decide)⟩⟩

/-- C5 counterexample: the copy returned by get_all_models shares its
ModelInfo objects with the registry (dict.copy is shallow). For the
concrete registry `regRefsOne`, reading address 0 for "m" out of the
returned mapping and mutating the object there changes what the registry
itself presents for "m" — refuting the claim that mutating the ModelInfo
entries reachable through the returned mapping leaves the internal state
unchanged. -/
theorem c5_counterexample :
    (get_all_modelsRefs regRefsOne).lookup "m" = some 0 ∧
    registryView (heapWrite heapOne 0 setLoadedTrue) regRefsOne "m" ≠
      registryView heapOne regRefsOne "m" := by
  constructor
  · rfl
  · decide

/-- C5 amended: get_all_models returns a shallow copy — a distinct dict
holding the same (key, object-reference) pairs. Deleting an entry from
the returned mapping does not remove the registry's entry, but the
ModelInfo objects themselves are shared: a mutation applied to the object
reached through the returned mapping is visible through the registry. -/
theorem c5_get_all_shallow_copy (heap : List (Addr × ModelInfo))
    (reg : RegistryRefs) (mid : String) (a : Addr) (info : ModelInfo)
    (f : ModelInfo → ModelInfo)
    (hm : (get_all_modelsRefs reg).lookup mid = some a)
    (hh : heap.lookup a = some info) :
    reg.modelsR.lookup mid = some a ∧
    (dictDel (get_all_modelsRefs reg) mid).lookup mid = none ∧
    registryView heap reg mid = some info ∧
    registryView (heapWrite heap a f) reg mid = some (f info) := by
  have hm2 : reg.modelsR.lookup mid = some a := hm
  refine ⟨hm2, lookup_dictDel_self _ _, ?_, ?_⟩
  · unfold registryView
    rw [hm2, Option.some_bind]
    exact hh
  · unfold registryView heapWrite
    rw [hm2, Option.some_bind, hh, lookup_dictSet_self]

/-- Witness for C5 amended at the concrete one-entry registry. -/
theorem c5_get_all_shallow_copy_witness :
    (get_all_modelsRefs regRefsOne).lookup "m" = some 0 ∧
    heapOne.lookup 0 = some infoM ∧
    (dictDel (get_all_modelsRefs regRefsOne) "m").lookup "m" = none ∧
    registryView heapOne regRefsOne "m" = some infoM ∧
    registryView (heapWrite heapOne 0 setLoadedTrue) regRefsOne "m" =
      some (setLoadedTrue infoM) :=
  ⟨by decide, by decide,
   (c5_get_all_shallow_copy heapOne regRefsOne "m" 0 infoM setLoadedTrue
     (by decide) (by decide)).2.1,
   (c5_get_all_shallow_copy heapOne regRefsOne "m" 0 infoM setLoadedTrue
     (by decide) (by decide)).2.2.1,
   (c5_get_all_shallow_copy heapOne regRefsOne "m" 0 infoM setLoadedTrue
     (by decide) (by decide)).2.2.2⟩

/-- C1 counterexample: a concrete run refuting the claimed invariant at
the end of a completed operation. From a registry containing "m"
(not loaded), load_model "m" succeeds (handle mapped, is_loaded true);
the subsequent completed download_model for the same id re-registers "m"
with is_loaded=false while leaving the handle in the loaded-handle map,
so at the end of download_model the flag (false) disagrees with
membership in the handle map (true). -/
theorem c1_counterexample :
    (ManagerState.load_model instOk c1St0 "m").1 = .ok true ∧
    (ManagerState.download_model c1St1 cfgValid).1 = .ok 0 ∧
    ((c1St2.registry.models.lookup "m").map ModelInfo.is_loaded).getD false
      = false ∧
    (c1St2.loaded_models.lookup "m").isSome = true := by
  refine ⟨rfl, rfl, by decide, by decide⟩

/-- C1 amended: the agreement between a registry entry's is_loaded flag
and membership of the model_id in the loaded-handle map is preserved, at
every key, by completed load_model and unload_model operations (under the
registry representation invariant regWF); it is not an invariant of
download_model, which registers the model with is_loaded=false while
leaving any existing handle in the map, nor of construction, which can
seed current_llm with is_loaded=true and no handle. -/
theorem c1_amended_load_unload_preserve_agreement {H : Type}
    (inst : Instantiator H) (st : ManagerState H) (mid k : String)
    (hwf : st.registry.regWF = true)
    (hagree : ((st.registry.models.lookup k).map ModelInfo.is_loaded).getD false
      = (st.loaded_models.lookup k).isSome) :
    ((((ManagerState.load_model inst st mid).2.registry.models.lookup k).map
        ModelInfo.is_loaded).getD false
      = ((ManagerState.load_model inst st mid).2.loaded_models.lookup k).isSome) ∧
    ((((ManagerState.unload_model st mid).2.registry.models.lookup k).map
        ModelInfo.is_loaded).getD false
      = ((ManagerState.unload_model st mid).2.loaded_models.lookup k).isSome) := by
  constructor
  · unfold ManagerState.load_model
    cases hr : st.registry.get_model mid with
    | none => exact hagree
    | some info =>
      have hid : info.model_id = mid := regWF_lookup hwf hr
      by_cases hl : info.is_loaded
      · simpa [hl] using hagree
      · simp only [hl, Bool.false_eq_true, if_false]
        cases hi : loader_load_model inst info with
        | some handle =>
          show (((dictSet st.registry.models
              ({ info with is_loaded := true } : ModelInfo).model_id
              { info with is_loaded := true }).lookup k).map
                ModelInfo.is_loaded).getD false
            = ((dictSet st.loaded_models mid handle).lookup k).isSome
          have hid2 : ({ info with is_loaded := true } : ModelInfo).model_id = mid :=
            hid
          rw [hid2]
          by_cases hk : k = mid
          · subst hk
            rw [lookup_dictSet_self, lookup_dictSet_self]
            rfl
          · rw [lookup_dictSet_ne _ _ _ _ hk, lookup_dictSet_ne _ _ _ _ hk]
            exact hagree
        | none => exact hagree
  · unfold ManagerState.unload_model
    by_cases hin : (st.loaded_models.lookup mid).isSome = true
    · rw [if_pos hin]
      cases hr : st.registry.get_model mid with
      | some info =>
        have hid : info.model_id = mid := regWF_lookup hwf hr
        show (((dictSet st.registry.models
            ({ info with is_loaded := false } : ModelInfo).model_id
            { info with is_loaded := false }).lookup k).map
              ModelInfo.is_loaded).getD false
          = ((dictDel st.loaded_models mid).lookup k).isSome
        have hid2 : ({ info with is_loaded := false } : ModelInfo).model_id = mid :=
          hid
        rw [hid2]
        by_cases hk : k = mid
        · subst hk
          rw [lookup_dictSet_self, lookup_dictDel_self]
          rfl
        · rw [lookup_dictSet_ne _ _ _ _ hk, lookup_dictDel_ne _ _ _ hk]
          exact hagree
      | none =>
        show ((st.registry.models.lookup k).map ModelInfo.is_loaded).getD false
          = ((dictDel st.loaded_models mid).lookup k).isSome
        by_cases hk : k = mid
        · subst hk
          rw [show st.registry.models.lookup k = none from hr, lookup_dictDel_self]
          rfl
        · rw [lookup_dictDel_ne _ _ _ hk]
          exact hagree
    · rw [if_neg hin]
      exact hagree

/-- Witness for C1 amended: agreement at "m" (and at the untouched
"other") survives a load_model and an unload_model on the concrete state
with "m" loaded. -/
theorem c1_amended_witness :
    stMLoaded.registry.regWF = true ∧
    ((stMLoaded.registry.models.lookup "m").map ModelInfo.is_loaded).getD false
      = (stMLoaded.loaded_models.lookup "m").isSome ∧
    ((((ManagerState.unload_model stMLoaded "m").2.registry.models.lookup "m").map
        ModelInfo.is_loaded).getD false
      = ((ManagerState.unload_model stMLoaded "m").2.loaded_models.lookup
          "m").isSome) :=
  ⟨by decide, by decide,
   (c1_amended_load_unload_preserve_agreement instOk stMLoaded "m" "m"
     (by decide) (by decide)).2⟩

/-- Helper: download_model never touches the active-model attributes. -/
theorem download_model_active {H : Type} (st : ManagerState H)
    (cfg : ModelConfig) :
    (ManagerState.download_model st cfg).2.active = st.active := by
  unfold ManagerState.download_model
  split <;> rfl

/-- Helper: load_model never touches the active-model attributes. -/
theorem load_model_active {H : Type} (inst : Instantiator H)
    (st : ManagerState H) (mid : String) :
    (ManagerState.load_model inst st mid).2.active = st.active := by
  unfold ManagerState.load_model
  cases hr : st.registry.get_model mid with
  | none => rfl
  | some info =>
    by_cases hl : info.is_loaded
    · simp [hl]
    · simp only [hl, Bool.false_eq_true, if_false]
      cases hi : loader_load_model inst info with
      | some handle => rfl
      | none => rfl

/-- Helper: unload_model never touches the active-model attributes. -/
theorem unload_model_active {H : Type} (st : ManagerState H) (mid : String) :
    (ManagerState.unload_model st mid).2.active = st.active := by
  unfold ManagerState.unload_model
  by_cases hin : (st.loaded_models.lookup mid).isSome = true
  · rw [if_pos hin]
    cases hr : st.registry.get_model mid with
    | some info => rfl
    | none => rfl
  · rw [if_neg hin]

/-- Helper: switch_active_model either leaves the active-model attributes
unchanged, or it returned True and set exactly the entry for its
model_type. -/
theorem switch_active_model_active {H : Type} (inst : Instantiator H)
    (st : ManagerState H) (mid mt : String) :
    (ManagerState.switch_active_model inst st mid mt).2.active = st.active ∨
    ((ManagerState.switch_active_model inst st mid mt).1 = .ok true ∧
      (ManagerState.switch_active_model inst st mid mt).2.active =
        dictSet st.active mt mid) := by
  unfold ManagerState.switch_active_model
  by_cases hs : (st.get_model mid).isSome = true
  · rw [if_pos hs]
    exact Or.inr ⟨rfl, rfl⟩
  · rw [if_neg hs]
    rcases hL : ManagerState.load_model inst st mid with ⟨r, s2⟩
    have hact : s2.active = st.active := by
      have h2 := load_model_active inst st mid
      rw [hL] at h2
      exact h2
    cases r with
    | error e => exact Or.inl hact
    | ok b =>
      cases b with
      | false => exact Or.inl hact
      | true =>
        refine Or.inr ⟨rfl, ?_⟩
        show dictSet s2.active mt mid = dictSet st.active mt mid
        rw [hact]

/-- Helper: along any trace with no successful switch for model type mt,
the active-model attribute for mt stays unset. -/
theorem run_active_lookup_none {H : Type} (inst : Instantiator H) (mt : String) :
    ∀ (cmds : List Cmd) (st : ManagerState H),
      st.active.lookup mt = none →
      ManagerState.switchSucceeded inst st mt cmds = false →
      (ManagerState.run inst st cmds).active.lookup mt = none := by
  intro cmds
  induction cmds with
  | nil =>
    intro st h _
    exact h
  | cons c cs ih =>
    intro st h hs
    rw [ManagerState.run]
    cases c with
    | download cfg =>
      simp only [ManagerState.switchSucceeded, Bool.false_or] at hs
      refine ih _ ?_ hs
      show (ManagerState.download_model st cfg).2.active.lookup mt = none
      rw [download_model_active]
      exact h
    | load mid =>
      simp only [ManagerState.switchSucceeded, Bool.false_or] at hs
      refine ih _ ?_ hs
      show (ManagerState.load_model inst st mid).2.active.lookup mt = none
      rw [load_model_active]
      exact h
    | unload mid =>
      simp only [ManagerState.switchSucceeded, Bool.false_or] at hs
      refine ih _ ?_ hs
      show (ManagerState.unload_model st mid).2.active.lookup mt = none
      rw [unload_model_active]
      exact h
    | switch mid mt2 =>
      simp only [ManagerState.switchSucceeded, Bool.or_eq_false_iff] at hs
      refine ih _ ?_ hs.2
      show (ManagerState.switch_active_model inst st mid mt2).2.active.lookup mt
        = none
      rcases switch_active_model_active inst st mid mt2 with hc | ⟨hok, hset⟩
      · rw [hc]
        exact h
      · rw [hset]
        have h1 := hs.1
        rw [hok] at h1
        simp only [Bool.and_eq_false_iff, beq_eq_false_iff_ne] at h1
        have hne : mt ≠ mt2 := by
          rcases h1 with h1 | h1
          · exact fun he => h1 he.symm
          · simp at h1
        rw [lookup_dictSet_ne _ _ _ _ hne]
        exact h

/-- C10: for every model_type for which no switch_active_model call has
returned True since Manager construction, get_active_model returns none —
in particular no default active model exists, the built-in current_llm
registration included (it sets no active attribute). -/
theorem c10_no_default_active {H : Type} (inst : Instantiator H)
    (disk : Option (List (String × ModelInfo))) (llm_mode : String)
    (cmds : List Cmd) (mt : String)
    (h : ManagerState.switchSucceeded inst
      (ManagerState.managerInit H disk llm_mode) mt cmds = false) :
    ManagerState.get_active_model
      (ManagerState.run inst (ManagerState.managerInit H disk llm_mode) cmds)
      mt = none := by
  have hlook : (ManagerState.run inst
      (ManagerState.managerInit H disk llm_mode) cmds).active.lookup mt = none :=
    run_active_lookup_none inst mt cmds _ rfl h
  unfold ManagerState.get_active_model
  rw [hlook]

/-- Witness for C10: a trace that downloads "m" and successfully switches
it as the active "embedding" model still has no active "llm" model; the
construction registers current_llm (non-mock mode) yet no switch for
"llm" happened. -/
theorem c10_no_default_active_witness :
    ManagerState.switchSucceeded instOk
      (ManagerState.managerInit Nat none "local")
      "llm" [Cmd.download cfgValid, Cmd.switch "m" "embedding"] = false ∧
    ManagerState.get_active_model
      (ManagerState.run instOk (ManagerState.managerInit Nat none "local")
        [Cmd.download cfgValid, Cmd.switch "m" "embedding"]) "llm" = none :=
  ⟨by decide,
   c10_no_default_active instOk none "local"
     [Cmd.download cfgValid, Cmd.switch "m" "embedding"] "llm" (by decide)⟩

end PrivateGPT
